import Mathlib

/-!
Shallow embedding of `research/object_detection/legacy/train.py` (the `main`
function): flag parsing results, config loading/copying, TF_CONFIG role
resolution, and the delegated `trainer.train` call wrapped in a
RuntimeError-swallowing try/except.

External collaborators (`config_util` loaders, `tf.train.Server`,
`trainer.train`) are modelled as opaque inputs: the loaders as pure
functions supplied in `MainInput`, the server target as a string, and the
trainer's behaviour as a `TrainBehavior` value.  Filesystem writes are
recorded as an effect trace.
-/

namespace TrainPy

/-- The JSON `cluster` mapping of `TF_CONFIG`: job name to list of
`host:port` addresses, modelled as an association list with distinct keys
(a Python dict). -/
abbrev ClusterData := List (String × List String)

/-- Python `cluster_data[k]` / `k in cluster_data`: first-match association
lookup. -/
def lookupJob : ClusterData → String → Option (List String)
  | [], _ => none
  | (k', v) :: rest, k => if k' = k then some v else lookupJob rest k

/-- Python truthiness of `cluster_data`: `None` and the empty dict are
falsy (`if cluster_data and ...`). -/
def clusterTruthy : Option ClusterData → Bool
  | none => false
  | some [] => false
  | some (_ :: _) => true

/-- The `task` mapping of `TF_CONFIG` once non-empty: `type` and `index`
fields, as read via the synthesized `TaskSpec` attribute object. -/
structure TaskData where
  type : String
  index : Int
deriving DecidableEq

/-- The `task` entry of the parsed `TF_CONFIG`: missing key, present but
empty dict (falsy), or a populated mapping. -/
inductive TaskEntry where
  | absent
  | empty
  | given (t : TaskData)
deriving DecidableEq

/-- Parsed `TF_CONFIG` environment variable:
`env = json.loads(os.environ.get('TF_CONFIG', '{}'))` with its optional
`cluster` and `task` entries. -/
structure TFConfig where
  cluster : Option ClusterData
  task : TaskEntry
deriving DecidableEq

/-- `TF_CONFIG` absent (so the default string parses to the empty JSON
object) or set to the empty JSON object: neither key is present. -/
def TFConfig.emptyEnv : TFConfig := { cluster := none, task := .absent }

/-- `task_data = env.get('task', None) or \x7b'type': 'master', 'index': 0\x7d`:
a missing or falsy (empty) task entry defaults to master / index 0. -/
def resolveTaskData : TaskEntry → TaskData
  | .absent => { type := "master", index := 0 }
  | .empty => { type := "master", index := 0 }
  | .given t => t

/-- Lines 181-183: `worker_replicas = 1`, then if `cluster_data` is truthy
and has a `worker` entry, `worker_replicas = len(cluster_data['worker']) + 1`. -/
def computeWorkerReplicas (cluster_data : Option ClusterData) : Nat :=
  match cluster_data with
  | some cd =>
    if cd ≠ [] then
      match lookupJob cd "worker" with
      | some ws => ws.length + 1
      | none => 1
    else 1
  | none => 1

/-- Lines 184-185: `ps_tasks = 0`, then if `cluster_data` is truthy and has
a `ps` entry, `ps_tasks = len(cluster_data['ps'])`. -/
def computePsTasks (cluster_data : Option ClusterData) : Nat :=
  match cluster_data with
  | some cd =>
    if cd ≠ [] then
      match lookupJob cd "ps" with
      | some ps => ps.length
      | none => 0
    else 0
  | none => 0

/-- The role parameters consumed by the trainer call: initialized for a
single worker and overwritten in the distributed branch. -/
structure RoleParams where
  ps_tasks : Nat
  worker_replicas : Nat
  worker_job_name : String
  task : Int
  is_chief : Bool
  master : String
deriving DecidableEq

/-- Outcome of the role-resolution block: either the ps role joins the
server and `main` returns without training, or execution proceeds to the
trainer with the resolved parameters. -/
inductive RoleOutcome where
  | psJoin
  | proceed (r : RoleParams)
deriving DecidableEq

/-- Lines 167-202 of `main`: derive the role parameters from the parsed
`TF_CONFIG`.  Raises `ValueError` (modelled as `.error`) when more than one
worker replica exists without any ps task.  `serverTarget` stands for the
externally determined `server.target` string. -/
def resolveRole (env : TFConfig) (serverTarget : String) :
    Except String RoleOutcome :=
  let task_info := resolveTaskData env.task
  let worker_replicas := computeWorkerReplicas env.cluster
  let ps_tasks := computePsTasks env.cluster
  if worker_replicas > 1 ∧ ps_tasks < 1 then
    .error "At least 1 ps task is needed for distributed training."
  else if worker_replicas ≥ 1 ∧ ps_tasks > 0 then
    if task_info.type = "ps" then
      .ok .psJoin
    else
      .ok (.proceed
        { ps_tasks := ps_tasks
          worker_replicas := worker_replicas
          worker_job_name := task_info.type ++ "/task:" ++ toString task_info.index
          task := task_info.index
          is_chief := task_info.type = "master"
          master := serverTarget })
  else
    .ok (.proceed
      { ps_tasks := ps_tasks
        worker_replicas := worker_replicas
        worker_job_name := "lonely_worker"
        task := 0
        is_chief := true
        master := "" })

/-- The flag registry, with the `DEFINE_*` default values. -/
structure Flags where
  master : String := ""
  task : Int := 0
  num_clones : Int := 1
  n_steps : Int := 0
  allow_memory_growth : Bool := true
  max_ckpt_to_keep : Int := 1
  save_interval_secs : Int := 600
  clone_on_cpu : Bool := false
  worker_replicas : Int := 1
  ps_tasks : Int := 0
  train_dir : String := ""
  reset_train : Int := 0
  enable_mixed_precision : Int := 0
  n_cpu_threads : Int := 4
  pipeline_config_path : String := ""
  train_config_path : String := ""
  input_config_path : String := ""
  model_config_path : String := ""
deriving DecidableEq

/-- The `train_pb2.TrainConfig` proto as used by `main`: the only field it
touches is `num_steps`; every other field is kept opaque. -/
structure TrainConfig where
  num_steps : Int
  otherFields : String
deriving DecidableEq

/-- The configuration bundle returned by `config_util`: a dict with keys
`model`, `train_config`, `train_input_config` and optionally
`graph_rewriter_config`.  The protos other than `train_config` are opaque. -/
structure Configs where
  model : String
  train_config : TrainConfig
  train_input_config : String
  graph_rewriter_config : Option String
deriving DecidableEq

/-- The two `config_util` loader entry points, external to this file,
modelled as pure functions from path(s) to a configuration bundle. -/
structure Loaders where
  get_configs_from_pipeline_file : String → Configs
  get_configs_from_multiple_files : String → String → String → Configs

/-- Lines 128-139 (branch choice only): a truthy (non-empty)
`pipeline_config_path` selects the combined-file loader, otherwise the
three-file loader is called with the three separate paths. -/
def loadConfigs (flags : Flags) (loaders : Loaders) : Configs :=
  if flags.pipeline_config_path ≠ "" then
    loaders.get_configs_from_pipeline_file flags.pipeline_config_path
  else
    loaders.get_configs_from_multiple_files flags.model_config_path
      flags.train_config_path flags.input_config_path

/-- Lines 150-152: `if FLAGS.n_steps > 0: train_config.num_steps = FLAGS.n_steps`. -/
def applyStepsOverride (n_steps : Int) (tc : TrainConfig) : TrainConfig :=
  if n_steps > 0 then { tc with num_steps := n_steps } else tc

/-- Filesystem writes performed by `main`, in order. -/
inductive FsEffect where
  | rmtree (dir : String)
  | makeDirs (dir : String)
  | copy (src dst : String)
deriving DecidableEq

/-- `os.path.join(dir, name)` for the relative names used here. -/
def pathJoin (dir name : String) : String :=
  if dir = "" then name
  else if dir.endsWith "/" then dir ++ name
  else dir ++ "/" ++ name

/-- `shutil.rmtree(dir)` given whether the directory exists: removes it, or
raises (FileNotFoundError) when it does not exist.  Returns the effect
trace and the new existence state. -/
def rmtree (dir : String) (dirExists : Bool) :
    Except String (List FsEffect × Bool) :=
  if dirExists then .ok ([.rmtree dir], false)
  else .error ("FileNotFoundError: " ++ dir)

/-- Lines 123-125, the reset-train path:
`if FLAGS.reset_train and os.path.isdir(FLAGS.train_dir): shutil.rmtree(FLAGS.train_dir)`.
Deletion is attempted only when the reset flag is truthy and the directory
exists.  Returns the effect trace and the directory's new existence state. -/
def resetTrainPath (reset_train : Int) (dir : String) (dirExists : Bool) :
    Except String (List FsEffect × Bool) :=
  if reset_train ≠ 0 ∧ dirExists = true then rmtree dir dirExists
  else .ok ([], dirExists)

/-- Lines 126-145 (copy part): on task index 0 the resolved config files
are copied into the training directory; other tasks copy nothing. -/
def configCopyEffects (flags : Flags) : List FsEffect :=
  if flags.task = 0 then
    if flags.pipeline_config_path ≠ "" then
      [.copy flags.pipeline_config_path (pathJoin flags.train_dir "pipeline.config")]
    else
      [.copy flags.model_config_path (pathJoin flags.train_dir "model.config"),
       .copy flags.train_config_path (pathJoin flags.train_dir "train.config"),
       .copy flags.input_config_path (pathJoin flags.train_dir "input.config")]
  else []

/-- Python exceptions as far as `main` distinguishes them: `RuntimeError`
versus everything else. -/
inductive PyExc where
  | runtimeError (msg : String)
  | other (name msg : String)
deriving DecidableEq

/-- Whether an exception is a `RuntimeError` (the one kind `main` catches). -/
def isRuntimeError : PyExc → Bool
  | .runtimeError _ => true
  | .other _ _ => false

/-- What the delegated `trainer.train` call does when invoked: return
normally or raise some exception.  The trainer is external to this file. -/
inductive TrainBehavior where
  | returns
  | raises (e : PyExc)
deriving DecidableEq

/-- The argument record handed to `trainer.train` (lines 213-232);
`model_config` and `input_config` stand for the configs closed over by
`model_fn` and `create_input_dict_fn`, `graph_hook` for the graph-rewriter
built from `graph_rewriter_config` when present. -/
structure TrainerCall where
  input_config : String
  model_config : String
  train_config : TrainConfig
  master : String
  task : Int
  num_clones : Int
  worker_replicas : Nat
  clone_on_cpu : Bool
  ps_tasks : Nat
  worker_job_name : String
  is_chief : Bool
  train_dir : String
  graph_hook : Option String
  allow_memory_growth : Bool
  n_cpu_threads : Int
  max_ckpt_to_keep : Int
  save_interval_secs : Int
  enable_mixed_precision : Int
deriving DecidableEq

/-- Ways `main` ends before reaching the trainer call. -/
inductive EarlyStop where
  | assertionError (msg : String)
  | valueError (msg : String)
  | psJoined
deriving DecidableEq

/-- Final outcome of `main`: stopped before the trainer, exited normally
after the trainer call (`swallowed` records a caught RuntimeError message),
or terminated by an uncaught exception from the trainer. -/
inductive MainOutcome where
  | stopped (s : EarlyStop)
  | exitNormally (c : TrainerCall) (swallowed : Option String)
  | propagate (c : TrainerCall) (e : PyExc)
deriving DecidableEq

/-- Whether the delegated training call was actually invoked. -/
def trainerInvoked : MainOutcome → Bool
  | .stopped _ => false
  | .exitNormally _ _ => true
  | .propagate _ _ => true

/-- Everything `main` reads from its surroundings: flags, whether
`train_dir` exists at entry, the parsed `TF_CONFIG`, the external config
loaders, the server's target string, and the trainer's behaviour. -/
structure MainInput where
  flags : Flags
  trainDirExists : Bool
  env : TFConfig
  loaders : Loaders
  serverTarget : String
  trainerBehavior : TrainBehavior

/-- Result of `main`: the filesystem effect trace and the outcome. -/
structure MainResult where
  effects : List FsEffect
  outcome : MainOutcome

/-- Assembly of the `trainer.train` argument record from the flags, the
loaded configuration bundle (with the `n_steps` override applied, lines
150-152) and the resolved role parameters. -/
def buildTrainerCall (flags : Flags) (configs : Configs) (r : RoleParams) :
    TrainerCall :=
  { input_config := configs.train_input_config
    model_config := configs.model
    train_config := applyStepsOverride flags.n_steps configs.train_config
    master := r.master
    task := r.task
    num_clones := flags.num_clones
    worker_replicas := r.worker_replicas
    clone_on_cpu := flags.clone_on_cpu
    ps_tasks := r.ps_tasks
    worker_job_name := r.worker_job_name
    is_chief := r.is_chief
    train_dir := flags.train_dir
    graph_hook := configs.graph_rewriter_config
    allow_memory_growth := flags.allow_memory_growth
    n_cpu_threads := flags.n_cpu_threads
    max_ckpt_to_keep := flags.max_ckpt_to_keep
    save_interval_secs := flags.save_interval_secs
    enable_mixed_precision := flags.enable_mixed_precision }

/-- The effect trace of the reset-train path (it never errors, since
deletion is guarded by the existence check). -/
def resetEffects (reset_train : Int) (dir : String) (dirExists : Bool) :
    List FsEffect :=
  match resetTrainPath reset_train dir dirExists with
  | .ok (effs, _) => effs
  | .error _ => []

/-- The effect trace of `main` before the trainer call: reset-train
deletion, directory creation on task 0, config copies on task 0. -/
def mainEffects (inp : MainInput) : List FsEffect :=
  resetEffects inp.flags.reset_train inp.flags.train_dir inp.trainDirExists ++
  (if inp.flags.task = 0 then [FsEffect.makeDirs inp.flags.train_dir] else []) ++
  configCopyEffects inp.flags

/-- `main` up to (but excluding) the `trainer.train` call: the assert on
`train_dir`, the reset-train path, directory creation and config copies on
task 0, config loading, the `n_steps` override, and role resolution. -/
def mainPre (inp : MainInput) : List FsEffect × Except EarlyStop TrainerCall :=
  if inp.flags.train_dir = "" then
    ([], .error (.assertionError "train_dir is missing."))
  else
    match resolveRole inp.env inp.serverTarget with
    | .error msg => (mainEffects inp, .error (.valueError msg))
    | .ok .psJoin => (mainEffects inp, .error .psJoined)
    | .ok (.proceed r) =>
      (mainEffects inp,
       .ok (buildTrainerCall inp.flags (loadConfigs inp.flags inp.loaders) r))

/-- The try/except around `trainer.train` (lines 212-237): a RuntimeError
is caught and logged and `main` exits normally; any other exception
propagates. -/
def runTrainerStep (c : TrainerCall) (beh : TrainBehavior) : MainOutcome :=
  match beh with
  | .returns => .exitNormally c none
  | .raises (.runtimeError m) => .exitNormally c (some m)
  | .raises e => .propagate c e

/-- The whole of `main`. -/
def main (inp : MainInput) : MainResult :=
  match mainPre inp with
  | (effs, .error s) => { effects := effs, outcome := .stopped s }
  | (effs, .ok c) =>
    { effects := effs, outcome := runTrainerStep c inp.trainerBehavior }

deriving instance DecidableEq for Except

/-- A concrete configuration bundle used to instantiate the external
loaders in witness inputs. -/
def configs0 : Configs :=
  { model := "model_cfg"
    train_config := { num_steps := 100, otherFields := "tc" }
    train_input_config := "input_cfg"
    graph_rewriter_config := none }

/-- Concrete loaders (constant functions) for witness inputs. -/
def loaders0 : Loaders :=
  { get_configs_from_pipeline_file := fun _ => configs0
    get_configs_from_multiple_files := fun _ _ _ => configs0 }

/-- A successful `lookupJob` forces the cluster dict to be non-empty
(truthy). -/
lemma lookupJob_some_ne_nil {cd : ClusterData} {k : String} {v : List String}
    (h : lookupJob cd k = some v) : cd ≠ [] := by
  intro hnil
  subst hnil
  simp [lookupJob] at h

/-- When role resolution proceeds, the role parameters carry exactly the
computed worker-replica and ps-task counts. -/
lemma resolveRole_proceed_counts (env : TFConfig) (target : String)
    (r : RoleParams) (h : resolveRole env target = .ok (.proceed r)) :
    r.worker_replicas = computeWorkerReplicas env.cluster ∧
    r.ps_tasks = computePsTasks env.cluster := by
  simp only [resolveRole] at h
  split at h
  · exact absurd h (by simp)
  · split at h
    · split at h
      · exact absurd h (by simp)
      · rw [Except.ok.injEq, RoleOutcome.proceed.injEq] at h
        subst h
        exact ⟨rfl, rfl⟩
    · rw [Except.ok.injEq, RoleOutcome.proceed.injEq] at h
      subst h
      exact ⟨rfl, rfl⟩

/-- A successful `mainPre` produced its trainer call with
`buildTrainerCall` from the loaded configs and some proceeding role. -/
lemma mainPre_ok (inp : MainInput) (c : TrainerCall)
    (h : (mainPre inp).2 = .ok c) :
    ∃ r, resolveRole inp.env inp.serverTarget = .ok (.proceed r) ∧
      c = buildTrainerCall inp.flags (loadConfigs inp.flags inp.loaders) r := by
  unfold mainPre at h
  split at h
  · simp at h
  · split at h
    · simp at h
    · simp at h
    · rename_i r heq
      refine ⟨r, heq, ?_⟩
      simpa using h.symm

/-- When `mainPre` reaches the trainer, `main`'s outcome is the try/except
step applied to that call. -/
lemma main_outcome_ok (inp : MainInput) (c : TrainerCall)
    (h : (mainPre inp).2 = .ok c) :
    (main inp).outcome = runTrainerStep c inp.trainerBehavior := by
  rcases hm : mainPre inp with ⟨effs, res⟩
  rw [hm] at h
  simp only at h
  subst h
  unfold main
  rw [hm]

/-- `computePsTasks` on a dict holding a `ps` list counts its length. -/
lemma computePsTasks_some {cd : ClusterData} {ps : List String}
    (h : lookupJob cd "ps" = some ps) :
    computePsTasks (some cd) = ps.length := by
  simp [computePsTasks, lookupJob_some_ne_nil h, h]

/-- The worker-replica count is always at least one. -/
lemma one_le_computeWorkerReplicas (c : Option ClusterData) :
    1 ≤ computeWorkerReplicas c := by
  rcases c with _ | cd
  · simp [computeWorkerReplicas]
  · simp only [computeWorkerReplicas]
    split
    · split <;> omega
    · omega

/-- Claim C1: a cluster descriptor with a non-empty `worker` list and an
empty or absent `ps` list makes `main` fail with the ValueError raised at
line 188 (the topology precondition the spec calls `ConfigurationError`),
and the trainer is never invoked. -/
theorem distributed_without_ps_fails_before_trainer (inp : MainInput)
    (cd : ClusterData) (ws : List String)
    (hdir : inp.flags.train_dir ≠ "")
    (hc : inp.env.cluster = some cd)
    (hw : lookupJob cd "worker" = some ws) (hk : ws ≠ [])
    (hps : lookupJob cd "ps" = none ∨ lookupJob cd "ps" = some []) :
    (main inp).outcome =
      .stopped (.valueError
        "At least 1 ps task is needed for distributed training.") ∧
    trainerInvoked (main inp).outcome = false := by
  have hcd := lookupJob_some_ne_nil hw
  have hwr : computeWorkerReplicas inp.env.cluster = ws.length + 1 := by
    rw [hc]; simp [computeWorkerReplicas, hcd, hw]
  have hlen : 0 < ws.length := List.length_pos.mpr hk
  have hpt : computePsTasks inp.env.cluster = 0 := by
    rw [hc]; rcases hps with h | h <;> simp [computePsTasks, hcd, h]
  have hrole : resolveRole inp.env inp.serverTarget =
      .error "At least 1 ps task is needed for distributed training." := by
    simp only [resolveRole]
    rw [if_pos ⟨by omega, by omega⟩]
  have hpre : mainPre inp =
      (mainEffects inp,
       .error (.valueError
         "At least 1 ps task is needed for distributed training.")) := by
    unfold mainPre
    rw [if_neg hdir, hrole]
  have hout : (main inp).outcome =
      .stopped (.valueError
        "At least 1 ps task is needed for distributed training.") := by
    unfold main
    rw [hpre]
  exact ⟨hout, by rw [hout]; rfl⟩

/-- Witness input for C1: one worker host, no `ps` entry. -/
def inpC1 : MainInput :=
  { flags := { train_dir := "wd" }
    trainDirExists := false
    env := { cluster := some [("worker", ["w0"])], task := .absent }
    loaders := loaders0
    serverTarget := ""
    trainerBehavior := .returns }

/-- Witness for C1 at the concrete input `inpC1`. -/
theorem distributed_without_ps_fails_before_trainer_witness :
    (main inpC1).outcome =
      .stopped (.valueError
        "At least 1 ps task is needed for distributed training.") ∧
    trainerInvoked (main inpC1).outcome = false :=
  distributed_without_ps_fails_before_trainer inpC1 [("worker", ["w0"])]
    ["w0"] (by decide) rfl (by decide) (by decide) (Or.inl (by decide))

/-- Claim C5: in distributed mode (some `ps` task exists), a process whose
resolved task type is `"ps"` joins the server and `main` stops without
ever invoking the trainer. -/
theorem ps_role_joins_and_never_trains (inp : MainInput)
    (cd : ClusterData) (ps : List String)
    (hdir : inp.flags.train_dir ≠ "")
    (hc : inp.env.cluster = some cd)
    (hps : lookupJob cd "ps" = some ps) (hne : ps ≠ [])
    (htype : (resolveTaskData inp.env.task).type = "ps") :
    (main inp).outcome = .stopped .psJoined ∧
    trainerInvoked (main inp).outcome = false := by
  have hcd := lookupJob_some_ne_nil hps
  have hpt : computePsTasks inp.env.cluster = ps.length := by
    rw [hc]; exact computePsTasks_some hps
  have hpos : 0 < computePsTasks inp.env.cluster := by
    rw [hpt]; exact List.length_pos.mpr hne
  have hone := one_le_computeWorkerReplicas inp.env.cluster
  have hrole : resolveRole inp.env inp.serverTarget = .ok .psJoin := by
    simp only [resolveRole]
    rw [if_neg (by omega : ¬(computeWorkerReplicas inp.env.cluster > 1 ∧
      computePsTasks inp.env.cluster < 1))]
    rw [if_pos ⟨hone, hpos⟩]
    rw [if_pos htype]
  have hpre : mainPre inp = (mainEffects inp, .error .psJoined) := by
    unfold mainPre
    rw [if_neg hdir, hrole]
  have hout : (main inp).outcome = .stopped .psJoined := by
    unfold main
    rw [hpre]
  exact ⟨hout, by rw [hout]; rfl⟩

/-- Witness input for C5: a `ps` cluster entry and task type `"ps"`. -/
def inpC5 : MainInput :=
  { flags := { train_dir := "wd" }
    trainDirExists := false
    env := { cluster := some [("ps", ["p0"])], task := .given ⟨"ps", 0⟩ }
    loaders := loaders0
    serverTarget := "grpc://p0"
    trainerBehavior := .returns }

/-- Witness for C5 at the concrete input `inpC5`. -/
theorem ps_role_joins_and_never_trains_witness :
    (main inpC5).outcome = .stopped .psJoined ∧
    trainerInvoked (main inpC5).outcome = false :=
  ps_role_joins_and_never_trains inpC5 [("ps", ["p0"])] ["p0"]
    (by decide) rfl (by decide) (by decide) (by decide)

/-- Claim C10: a `cluster` mapping with the `task` entry absent or empty
defaults the task descriptor to type `"master"`, index 0; in distributed
mode (non-empty `ps` list) such a process proceeds with
`worker_job_name = "master/task:0"`, `task = 0` and `is_chief = true`. -/
theorem default_task_is_master_in_distributed (env : TFConfig)
    (target : String) (cd : ClusterData) (ps : List String)
    (hc : env.cluster = some cd)
    (ht : env.task = .absent ∨ env.task = .empty)
    (hps : lookupJob cd "ps" = some ps) (hne : ps ≠ []) :
    resolveTaskData env.task = { type := "master", index := 0 } ∧
    ∃ r, resolveRole env target = .ok (.proceed r) ∧
      r.worker_job_name = "master/task:0" ∧ r.task = 0 ∧
      r.is_chief = true := by
  have htd : resolveTaskData env.task = { type := "master", index := 0 } := by
    rcases ht with h | h <;> rw [h] <;> rfl
  refine ⟨htd, ?_⟩
  have hcd := lookupJob_some_ne_nil hps
  have hpt : computePsTasks env.cluster = ps.length := by
    rw [hc]; exact computePsTasks_some hps
  have hpos : 0 < computePsTasks env.cluster := by
    rw [hpt]; exact List.length_pos.mpr hne
  have hone := one_le_computeWorkerReplicas env.cluster
  simp only [resolveRole, htd]
  rw [if_neg (by omega : ¬(computeWorkerReplicas env.cluster > 1 ∧
    computePsTasks env.cluster < 1))]
  rw [if_pos ⟨hone, hpos⟩]
  rw [if_neg (by decide :
    ¬(TaskData.type { type := "master", index := 0 } = "ps"))]
  exact ⟨_, rfl, rfl, rfl, rfl⟩

/-- Witness for C10 at a concrete environment with a `ps` entry and an
absent `task` entry. -/
theorem default_task_is_master_in_distributed_witness :
    resolveTaskData (TFConfig.mk (some [("ps", ["p0"])]) .absent).task =
      { type := "master", index := 0 } ∧
    ∃ r, resolveRole (TFConfig.mk (some [("ps", ["p0"])]) .absent)
        "grpc://m" = .ok (.proceed r) ∧
      r.worker_job_name = "master/task:0" ∧ r.task = 0 ∧
      r.is_chief = true :=
  default_task_is_master_in_distributed
    (TFConfig.mk (some [("ps", ["p0"])]) .absent) "grpc://m"
    [("ps", ["p0"])] ["p0"] rfl (Or.inl rfl) (by decide) (by decide)

/-- Claim C3: with `TF_CONFIG` absent or equal to the empty JSON object,
role resolution yields exactly `ps_tasks = 0`, `worker_replicas = 1`,
`worker_job_name = "lonely_worker"`, `task = 0`, `is_chief = true` and an
empty `master` string. -/
theorem empty_tf_config_yields_lonely_worker (target : String) :
    resolveRole TFConfig.emptyEnv target =
      .ok (.proceed
        { ps_tasks := 0
          worker_replicas := 1
          worker_job_name := "lonely_worker"
          task := 0
          is_chief := true
          master := "" }) := rfl

/-- Witness for C3 at a concrete (irrelevant) server target. -/
theorem empty_tf_config_yields_lonely_worker_witness :
    resolveRole TFConfig.emptyEnv "grpc://x" =
      .ok (.proceed
        { ps_tasks := 0
          worker_replicas := 1
          worker_job_name := "lonely_worker"
          task := 0
          is_chief := true
          master := "" }) :=
  empty_tf_config_yields_lonely_worker "grpc://x"

/-- Claim C4: a cluster descriptor whose `worker` list has length `k`
resolves to `worker_replicas = k + 1`; in particular any proceeding role
resolution from such a descriptor carries `worker_replicas = k + 1`. -/
theorem worker_replicas_is_worker_count_plus_one (cd : ClusterData)
    (ws : List String) (te : TaskEntry) (target : String) (r : RoleParams)
    (hw : lookupJob cd "worker" = some ws) :
    computeWorkerReplicas (some cd) = ws.length + 1 ∧
    (resolveRole { cluster := some cd, task := te } target =
        .ok (.proceed r) → r.worker_replicas = ws.length + 1) := by
  have hcd : cd ≠ [] := lookupJob_some_ne_nil hw
  have hwr : computeWorkerReplicas (some cd) = ws.length + 1 := by
    simp [computeWorkerReplicas, hcd, hw]
  refine ⟨hwr, fun h => ?_⟩
  have := (resolveRole_proceed_counts _ _ _ h).1
  rw [this]
  exact hwr

/-- Witness cluster descriptor for C4: one worker and one ps host. -/
def cdW : ClusterData := [("worker", ["w0"]), ("ps", ["p0"])]

/-- Witness role parameters for C4: what `resolveRole` produces on `cdW`
with task type `worker`, index 1. -/
def rW : RoleParams :=
  { ps_tasks := 1
    worker_replicas := 2
    worker_job_name := "worker/task:1"
    task := 1
    is_chief := false
    master := "grpc://w0" }

/-- Witness for C4 at the concrete descriptor `cdW`. -/
theorem worker_replicas_is_worker_count_plus_one_witness :
    computeWorkerReplicas (some cdW) = ["w0"].length + 1 ∧
    (resolveRole { cluster := some cdW, task := .given ⟨"worker", 1⟩ }
        "grpc://w0" = .ok (.proceed rW) →
      rW.worker_replicas = ["w0"].length + 1) :=
  worker_replicas_is_worker_count_plus_one cdW ["w0"] (.given ⟨"worker", 1⟩)
    "grpc://w0" rW (by decide)

/-- Claim C9: the reset-train path is idempotent and never errors the
second time: a successful run leaves a state on which a second run
performs no deletion and returns the same state; with a truthy reset flag
the directory is absent afterwards, and no deletion is ever attempted on
an absent directory. -/
theorem reset_train_idempotent (r : Int) (d : String) (e e' : Bool)
    (effs : List FsEffect) (h : resetTrainPath r d e = .ok (effs, e')) :
    resetTrainPath r d e' = .ok ([], e') ∧
    (r ≠ 0 → e' = false) ∧
    (e = false → effs = []) := by
  unfold resetTrainPath rmtree at h ⊢
  split at h
  · rename_i hguard
    rw [if_pos hguard.2] at h
    rw [Except.ok.injEq, Prod.mk.injEq] at h
    obtain ⟨hfx, he⟩ := h
    subst hfx; subst he
    refine ⟨by simp, fun _ => rfl, fun habs => ?_⟩
    rw [habs] at hguard
    exact absurd hguard.2 (by simp)
  · rename_i hguard
    rw [Except.ok.injEq, Prod.mk.injEq] at h
    obtain ⟨hfx, he⟩ := h
    subst hfx; subst he
    refine ⟨by rw [if_neg hguard], fun hr => ?_, fun he => rfl⟩
    cases e with
    | false => rfl
    | true => exact absurd ⟨hr, rfl⟩ hguard

/-- Witness for C9: resetting `"wd"` once deletes it; the second run on
the now-absent directory does nothing and does not error. -/
theorem reset_train_idempotent_witness :
    resetTrainPath 1 "wd" false = .ok ([], false) ∧
    ((1 : Int) ≠ 0 → false = false) ∧
    (true = false → [FsEffect.rmtree "wd"] = []) :=
  reset_train_idempotent 1 "wd" true false [FsEffect.rmtree "wd"] (by decide)

/-- Claim C2: a RuntimeError raised by the delegated trainer is caught
(and recorded as swallowed) and `main` exits normally; any other exception
raised by the trainer propagates uncaught. -/
theorem runtime_error_swallowed_others_propagate (inp : MainInput)
    (c : TrainerCall) (h : (mainPre inp).2 = .ok c) :
    (∀ m, inp.trainerBehavior = .raises (.runtimeError m) →
      (main inp).outcome = .exitNormally c (some m)) ∧
    (∀ e, inp.trainerBehavior = .raises e → isRuntimeError e = false →
      (main inp).outcome = .propagate c e) := by
  constructor
  · intro m hb
    rw [main_outcome_ok inp c h, hb]
    rfl
  · intro e hb hre
    rw [main_outcome_ok inp c h, hb]
    cases e with
    | runtimeError m => simp [isRuntimeError] at hre
    | other n m => rfl

/-- Witness input for C2: single-process run whose trainer raises a
RuntimeError. -/
def inpC2 : MainInput :=
  { flags := { train_dir := "wd" }
    trainDirExists := false
    env := TFConfig.emptyEnv
    loaders := loaders0
    serverTarget := ""
    trainerBehavior := .raises (.runtimeError "boom") }

/-- The trainer call `inpC2` reaches. -/
def callC2 : TrainerCall :=
  buildTrainerCall inpC2.flags configs0
    { ps_tasks := 0
      worker_replicas := 1
      worker_job_name := "lonely_worker"
      task := 0
      is_chief := true
      master := "" }

/-- Witness for C2 at `inpC2`: the RuntimeError is swallowed and the run
exits normally. -/
theorem runtime_error_swallowed_others_propagate_witness :
    (main inpC2).outcome = .exitNormally callC2 (some "boom") :=
  (runtime_error_swallowed_others_propagate inpC2 callC2 rfl).1 "boom" rfl

/-- Claim C7: the trainer call carries `num_steps` equal to the positive
CLI override `n_steps`, regardless of the loaded config; a non-positive
`n_steps` leaves the loaded step count untouched. -/
theorem n_steps_override_applied (inp : MainInput) (c : TrainerCall)
    (h : (mainPre inp).2 = .ok c) :
    (inp.flags.n_steps > 0 →
      c.train_config.num_steps = inp.flags.n_steps) ∧
    (inp.flags.n_steps ≤ 0 →
      c.train_config.num_steps =
        (loadConfigs inp.flags inp.loaders).train_config.num_steps) := by
  obtain ⟨r, _, hcall⟩ := mainPre_ok inp c h
  subst hcall
  constructor
  · intro hpos
    simp [buildTrainerCall, applyStepsOverride, hpos]
  · intro hle
    have hneg : ¬ inp.flags.n_steps > 0 := by omega
    simp [buildTrainerCall, applyStepsOverride, hneg]

/-- Witness input for C7: `n_steps = 500` while the loaded config says
100 steps. -/
def inpC7 : MainInput :=
  { flags := { train_dir := "wd", n_steps := 500 }
    trainDirExists := false
    env := TFConfig.emptyEnv
    loaders := loaders0
    serverTarget := ""
    trainerBehavior := .returns }

/-- The trainer call `inpC7` reaches. -/
def callC7 : TrainerCall :=
  buildTrainerCall inpC7.flags configs0
    { ps_tasks := 0
      worker_replicas := 1
      worker_job_name := "lonely_worker"
      task := 0
      is_chief := true
      master := "" }

/-- Witness for C7 at `inpC7`: the call's step count is the 500 override,
not the 100 from the loaded config. -/
theorem n_steps_override_applied_witness :
    callC7.train_config.num_steps = inpC7.flags.n_steps ∧
    inpC7.flags.n_steps = 500 :=
  ⟨(n_steps_override_applied inpC7 callC7 rfl).1 (by decide), rfl⟩

/-- Replace only the three separate config paths of an input, leaving
every other flag and input component unchanged. -/
def setThreePaths (inp : MainInput) (p1 p2 p3 : String) : MainInput :=
  { inp with
      flags :=
        { inp.flags with
            model_config_path := p1
            train_config_path := p2
            input_config_path := p3 } }

/-- Claim C6: with a non-empty `pipeline_config_path` the configuration
bundle comes solely from the combined pipeline file, and the run is
entirely independent of the three separate config paths. -/
theorem pipeline_config_precedence (inp : MainInput) (p1 p2 p3 : String)
    (h : inp.flags.pipeline_config_path ≠ "") :
    loadConfigs inp.flags inp.loaders =
      inp.loaders.get_configs_from_pipeline_file
        inp.flags.pipeline_config_path ∧
    main (setThreePaths inp p1 p2 p3) = main inp := by
  refine ⟨by unfold loadConfigs; rw [if_pos h], ?_⟩
  unfold main mainPre mainEffects resetEffects configCopyEffects loadConfigs
    buildTrainerCall setThreePaths
  simp [h]

/-- Witness input for C6. -/
def inpC6 : MainInput :=
  { flags := { train_dir := "wd", pipeline_config_path := "p.cfg" }
    trainDirExists := false
    env := TFConfig.emptyEnv
    loaders := loaders0
    serverTarget := ""
    trainerBehavior := .returns }

/-- Witness for C6 at `inpC6`: replacing the three separate paths changes
nothing. -/
theorem pipeline_config_precedence_witness :
    loadConfigs inpC6.flags inpC6.loaders =
      inpC6.loaders.get_configs_from_pipeline_file
        inpC6.flags.pipeline_config_path ∧
    main (setThreePaths inpC6 "m.cfg" "t.cfg" "i.cfg") = main inpC6 :=
  pipeline_config_precedence inpC6 "m.cfg" "t.cfg" "i.cfg" (by decide)

/-- Whether an effect creates a directory or copies a config file. -/
def isCreateOrCopy : FsEffect → Bool
  | .rmtree _ => false
  | .makeDirs _ => true
  | .copy _ _ => true

/-- When `main` gets past the `train_dir` assert, its effect trace is
`mainEffects`. -/
lemma main_effects_eq (inp : MainInput) (hdir : inp.flags.train_dir ≠ "") :
    (main inp).effects = mainEffects inp := by
  unfold main mainPre
  rw [if_neg hdir]
  rcases hr : resolveRole inp.env inp.serverTarget with msg | ro
  · rfl
  · rcases ro with _ | r <;> rfl

/-- The reset-train path only ever deletes the training directory. -/
lemma mem_resetEffects {r : Int} {d : String} {ex : Bool} {e : FsEffect}
    (he : e ∈ resetEffects r d ex) : e = FsEffect.rmtree d := by
  unfold resetEffects resetTrainPath rmtree at he
  by_cases hg : r ≠ 0 ∧ ex = true
  · rw [if_pos hg, if_pos hg.2] at he
    simpa using he
  · rw [if_neg hg] at he
    simp at he

/-- Claim C8 (amended): only the process with task index 0 creates the
training directory and copies the resolved config file(s)
(`pipeline.config` in combined mode; `model.config`, `train.config` and
`input.config` in three-file mode); every other task index performs no
directory creation and no copy — although the reset-train deletion, which
precedes the task-index check, may still remove the directory for any
task index. -/
theorem only_task_zero_creates_and_copies (inp : MainInput)
    (hdir : inp.flags.train_dir ≠ "") :
    (∀ e ∈ (main inp).effects, isCreateOrCopy e = true →
      inp.flags.task = 0) ∧
    (inp.flags.task = 0 → inp.flags.pipeline_config_path ≠ "" →
      FsEffect.makeDirs inp.flags.train_dir ∈ (main inp).effects ∧
      FsEffect.copy inp.flags.pipeline_config_path
        (pathJoin inp.flags.train_dir "pipeline.config") ∈
          (main inp).effects) ∧
    (inp.flags.task = 0 → inp.flags.pipeline_config_path = "" →
      FsEffect.makeDirs inp.flags.train_dir ∈ (main inp).effects ∧
      FsEffect.copy inp.flags.model_config_path
        (pathJoin inp.flags.train_dir "model.config") ∈ (main inp).effects ∧
      FsEffect.copy inp.flags.train_config_path
        (pathJoin inp.flags.train_dir "train.config") ∈ (main inp).effects ∧
      FsEffect.copy inp.flags.input_config_path
        (pathJoin inp.flags.train_dir "input.config") ∈
          (main inp).effects) := by
  rw [main_effects_eq inp hdir]
  refine ⟨?_, ?_, ?_⟩
  · intro e he hcc
    by_cases ht : inp.flags.task = 0
    · exact ht
    · exfalso
      unfold mainEffects configCopyEffects at he
      rw [if_neg ht, if_neg ht] at he
      simp only [List.append_nil] at he
      rw [mem_resetEffects he] at hcc
      simp [isCreateOrCopy] at hcc
  · intro ht hp
    constructor <;> simp [mainEffects, configCopyEffects, ht, hp]
  · intro ht hp
    refine ⟨?_, ?_, ?_, ?_⟩ <;>
      simp [mainEffects, configCopyEffects, ht, hp]

/-- Counterexample input for C8 as stated: task index 1 with
`reset_train = 1` on an existing training directory. -/
def inpC8 : MainInput :=
  { flags := { train_dir := "wd", task := 1, reset_train := 1 }
    trainDirExists := true
    env := TFConfig.emptyEnv
    loaders := loaders0
    serverTarget := ""
    trainerBehavior := .returns }

/-- Counterexample to claim C8 as stated: it is not true that a process
with task index other than 0 leaves the training directory unchanged —
at `inpC8` (task 1, reset_train 1, directory present) `main` deletes the
training directory. -/
theorem only_task_zero_counterexample :
    ¬ ∀ inp : MainInput, inp.flags.task ≠ 0 → (main inp).effects = [] := by
  intro hall
  have h2 := hall inpC8 (by decide)
  have h3 : (main inpC8).effects = [FsEffect.rmtree "wd"] := by decide
  rw [h3] at h2
  exact absurd h2 (by decide)

/-- Witness input for the amended C8: task index 0 in combined mode. -/
def inpW8 : MainInput :=
  { flags := { train_dir := "wd", pipeline_config_path := "p.cfg" }
    trainDirExists := false
    env := TFConfig.emptyEnv
    loaders := loaders0
    serverTarget := ""
    trainerBehavior := .returns }

/-- Witness for the amended C8 at `inpW8`: task 0 creates the directory
and copies `pipeline.config`. -/
theorem only_task_zero_creates_and_copies_witness :
    FsEffect.makeDirs "wd" ∈ (main inpW8).effects ∧
    FsEffect.copy "p.cfg" (pathJoin "wd" "pipeline.config") ∈
      (main inpW8).effects :=
  (only_task_zero_creates_and_copies inpW8 (by decide)).2.1 rfl (by decide)

end TrainPy
